import Mathlib

/-!
Verification of the canvas interaction engine of the seedream-nano-banana
image compositor (src/App.tsx, src/services/geminiService.ts, src/types.ts).

The TypeScript source is shallowly embedded:
* geometry that involves trigonometry (the rotated-rectangle hit test of
  `isPointInRotatedRect`, App.tsx lines 13-31) is embedded over `ℝ`, with
  `Real.cos`/`Real.sin` standing for `Math.cos`/`Math.sin`;
* all other numeric state (object positions, sizes, z-indices, zoom) is
  embedded over `ℚ`, exact stand-ins for JavaScript's binary floats, so that
  every state-transition function is computable and witnesses evaluate;
* `Math.atan2`-based angle computation is kept as an abstract function
  parameter (its value is irrational and no proved claim depends on it);
* asynchronous control flow (the SeaDream polling loops) is embedded as a
  recursion over an abstract stream of poll responses, one step per 5-second
  polling iteration, with the 3-minute budget giving 36 iterations;
* each `throw` site is mapped to a distinct constructor or to the exact
  error-message string the source builds.
-/

/-- Char-list core of `strStartsWith`: does the first list lead the second? -/
def leadMatch : List Char → List Char → Bool
  | [], _ => true
  | _ :: _, [] => false
  | c :: cs, d :: ds => c = d && leadMatch cs ds

/-- Embedding of JavaScript `s.startsWith(pat)` on the underlying
character lists. -/
def strStartsWith (s pat : String) : Bool :=
  leadMatch pat.data s.data

/-- Embedding of the JavaScript idiom `o || dflt` on an optional string:
`undefined`/`null` and the empty string (both falsy) give the default. -/
def jsOrElse (o : Option String) (dflt : String) : String :=
  match o with
  | none => dflt
  | some s => if s = "" then dflt else s

-- ## Geometry: rotated-rectangle hit test (App.tsx 13-31), over ℝ

/-- A point `{ x, y }` in canvas space. -/
structure Point where
  x : ℝ
  y : ℝ

/-- A rectangle `{ x, y, width, height, rotation }`, rotation in degrees
about its own center, as consumed by `isPointInRotatedRect`. -/
structure RotRect where
  x : ℝ
  y : ℝ
  width : ℝ
  height : ℝ
  rotation : ℝ

/-- Embedding of `isPointInRotatedRect` (App.tsx 13-31): translate the
query point by the rectangle center, rotate by `-rotation` degrees, and
compare against the axis-aligned half-extents. -/
def isPointInRotatedRect (point : Point) (rect : RotRect) : Prop :=
  let cx := rect.x + rect.width / 2
  let cy := rect.y + rect.height / 2
  let angleRad := -rect.rotation * (Real.pi / 180)
  let translatedX := point.x - cx
  let translatedY := point.y - cy
  let rotatedX := translatedX * Real.cos angleRad - translatedY * Real.sin angleRad
  let rotatedY := translatedX * Real.sin angleRad + translatedY * Real.cos angleRad
  let halfW := rect.width / 2
  let halfH := rect.height / 2
  (-halfW ≤ rotatedX) ∧ rotatedX ≤ halfW ∧ (-halfH ≤ rotatedY) ∧ rotatedY ≤ halfH

/-- The center of a rectangle, `(x + width/2, y + height/2)`. -/
noncomputable def rectCenter (rect : RotRect) : Point :=
  ⟨rect.x + rect.width / 2, rect.y + rect.height / 2⟩

/-- Rotate a point by `θ` degrees about a center `c`, in the same angular
convention the hit test uses for the rectangle's own `rotation` field (a
rectangle with rotation `r + θ` occupies exactly the image of the rectangle
with rotation `r` under this map applied to its world-space points). -/
noncomputable def rotatePointAbout (c : Point) (θ : ℝ) (p : Point) : Point :=
  let a := θ * (Real.pi / 180)
  ⟨c.x + (p.x - c.x) * Real.cos a - (p.y - c.y) * Real.sin a,
   c.y + (p.x - c.x) * Real.sin a + (p.y - c.y) * Real.cos a⟩

/-- Rotate a rectangle by `θ` degrees about its own center: only the
`rotation` field changes. -/
noncomputable def rotateRectBy (rect : RotRect) (θ : ℝ) : RotRect :=
  { rect with rotation := rect.rotation + θ }

theorem localX_rotate_eq (p : Point) (rect : RotRect) (θ : ℝ) :
    ((rotatePointAbout (rectCenter rect) θ p).x -
        ((rotateRectBy rect θ).x + (rotateRectBy rect θ).width / 2)) *
        Real.cos (-(rotateRectBy rect θ).rotation * (Real.pi / 180)) -
      ((rotatePointAbout (rectCenter rect) θ p).y -
        ((rotateRectBy rect θ).y + (rotateRectBy rect θ).height / 2)) *
        Real.sin (-(rotateRectBy rect θ).rotation * (Real.pi / 180)) =
    (p.x - (rect.x + rect.width / 2)) * Real.cos (-rect.rotation * (Real.pi / 180)) -
      (p.y - (rect.y + rect.height / 2)) * Real.sin (-rect.rotation * (Real.pi / 180)) := by
  simp only [rotatePointAbout, rotateRectBy, rectCenter]
  have hang : -(rect.rotation + θ) * (Real.pi / 180) =
      -rect.rotation * (Real.pi / 180) - θ * (Real.pi / 180) := by ring
  rw [hang, Real.cos_sub, Real.sin_sub]
  have hpyth := Real.sin_sq_add_cos_sq (θ * (Real.pi / 180))
  linear_combination ((p.x - (rect.x + rect.width / 2)) *
      Real.cos (-rect.rotation * (Real.pi / 180)) -
    (p.y - (rect.y + rect.height / 2)) *
      Real.sin (-rect.rotation * (Real.pi / 180))) * hpyth

theorem localY_rotate_eq (p : Point) (rect : RotRect) (θ : ℝ) :
    ((rotatePointAbout (rectCenter rect) θ p).x -
        ((rotateRectBy rect θ).x + (rotateRectBy rect θ).width / 2)) *
        Real.sin (-(rotateRectBy rect θ).rotation * (Real.pi / 180)) +
      ((rotatePointAbout (rectCenter rect) θ p).y -
        ((rotateRectBy rect θ).y + (rotateRectBy rect θ).height / 2)) *
        Real.cos (-(rotateRectBy rect θ).rotation * (Real.pi / 180)) =
    (p.x - (rect.x + rect.width / 2)) * Real.sin (-rect.rotation * (Real.pi / 180)) +
      (p.y - (rect.y + rect.height / 2)) * Real.cos (-rect.rotation * (Real.pi / 180)) := by
  simp only [rotatePointAbout, rotateRectBy, rectCenter]
  have hang : -(rect.rotation + θ) * (Real.pi / 180) =
      -rect.rotation * (Real.pi / 180) - θ * (Real.pi / 180) := by ring
  rw [hang, Real.cos_sub, Real.sin_sub]
  have hpyth := Real.sin_sq_add_cos_sq (θ * (Real.pi / 180))
  linear_combination ((p.x - (rect.x + rect.width / 2)) *
      Real.sin (-rect.rotation * (Real.pi / 180)) +
    (p.y - (rect.y + rect.height / 2)) *
      Real.cos (-rect.rotation * (Real.pi / 180))) * hpyth

/-- C1: the rotated-rectangle hit test `isPointInRotatedRect` is invariant
under rotating both the query point and the rectangle by the same angle `θ`
(degrees) about the rectangle's center: the test translates the point into
the rectangle's local frame by subtracting the center and rotating by
`-rotation`, then checks the axis-aligned half-extents, and the local-frame
coordinates are unchanged by the simultaneous rotation. -/
theorem isPointInRotatedRect_rotation_invariant (p : Point) (rect : RotRect) (θ : ℝ) :
    isPointInRotatedRect (rotatePointAbout (rectCenter rect) θ p) (rotateRectBy rect θ) ↔
      isPointInRotatedRect p rect := by
  have hx := localX_rotate_eq p rect θ
  have hy := localY_rotate_eq p rect θ
  simp only [isPointInRotatedRect]
  rw [show (rotateRectBy rect θ).width = rect.width from rfl,
    show (rotateRectBy rect θ).height = rect.height from rfl] at *
  constructor
  · rintro ⟨h1, h2, h3, h4⟩
    rw [hx] at h1 h2
    rw [hy] at h3 h4
    exact ⟨h1, h2, h3, h4⟩
  · rintro ⟨h1, h2, h3, h4⟩
    rw [← hx] at h1 h2
    rw [← hy] at h3 h4
    exact ⟨h1, h2, h3, h4⟩

-- ## Object model (src/types.ts), over ℚ

/-- `CanvasObject` (src/types.ts): an image object on the canvas. -/
structure CanvasObject where
  id : String
  src : String
  x : ℚ
  y : ℚ
  width : ℚ
  height : ℚ
  rotation : ℚ
  zIndex : ℚ
  isAiResult : Bool := false
deriving DecidableEq

/-- `FrameObject` (src/types.ts): extends `CanvasObject` with `aspectRatio`. -/
structure FrameObject where
  id : String
  src : String
  x : ℚ
  y : ℚ
  width : ℚ
  height : ℚ
  rotation : ℚ
  zIndex : ℚ
  aspectRatio : ℚ
deriving DecidableEq

/-- `PromptNodeObject` (src/types.ts). -/
structure PromptNodeObject where
  id : String
  attachedToId : String
  x : ℚ
  y : ℚ
  width : ℚ
  height : ℚ
  zIndex : ℚ
  prompt : String
deriving DecidableEq

/-- `CanvasState` (src/types.ts): one named canvas. -/
structure CanvasState where
  id : String
  name : String
  objects : List CanvasObject
  frames : List FrameObject
  promptNodes : List PromptNodeObject
deriving DecidableEq

/-- `PROMPT_NODE_WIDTH` (App.tsx 651). -/
def PROMPT_NODE_WIDTH : ℚ := 48

/-- `PROMPT_NODE_HEIGHT` (App.tsx 652). -/
def PROMPT_NODE_HEIGHT : ℚ := 180

/-- `Z_INDEX_BASE_IMAGE` (App.tsx 655). -/
def Z_INDEX_BASE_IMAGE : ℚ := 0

/-- `Z_INDEX_BASE_FRAME` (App.tsx 656). -/
def Z_INDEX_BASE_FRAME : ℚ := 10000

/-- `Z_INDEX_BASE_PROMPT_NODE` (App.tsx 657). -/
def Z_INDEX_BASE_PROMPT_NODE : ℚ := 20000

/-- `Math.max(...list)` on a list the source has guarded to be nonempty
(the `[]` default is never reached under those guards). -/
def jsMaxList : List ℚ → ℚ
  | [] => 0
  | x :: xs => xs.foldl max x

/-- Parent lookup `newObjects.find(o => o.id === id) || newFrames.find(f => f.id === id)`
(App.tsx 1195), used both by the prompt-node sync and to state referential
integrity. -/
def findParent (objects : List CanvasObject) (frames : List FrameObject)
    (pid : String) : Option (CanvasObject ⊕ FrameObject) :=
  match objects.find? (fun o => o.id == pid) with
  | some o => some (Sum.inl o)
  | none => (frames.find? (fun f => f.id == pid)).map Sum.inr

/-- `parent.x` through the image/frame union. -/
def parentX : CanvasObject ⊕ FrameObject → ℚ
  | Sum.inl o => o.x
  | Sum.inr f => f.x

/-- `parent.y` through the image/frame union. -/
def parentY : CanvasObject ⊕ FrameObject → ℚ
  | Sum.inl o => o.y
  | Sum.inr f => f.y

/-- `parent.height` through the image/frame union. -/
def parentHeight : CanvasObject ⊕ FrameObject → ℚ
  | Sum.inl o => o.height
  | Sum.inr f => f.height

-- ## Frame capture selection (captureFrameContentAsDataURL, App.tsx 602-646)

/-- The axis-aligned bounding-box overlap test of the frame-capture filter
(App.tsx 618-621): `obj.x < frame.x + frame.width && obj.x + obj.width > frame.x
&& obj.y < frame.y + frame.height && obj.y + obj.height > frame.y`. -/
def overlapsFrame (frame : FrameObject) (obj : CanvasObject) : Bool :=
  decide (obj.x < frame.x + frame.width) && decide (frame.x < obj.x + obj.width) &&
    decide (obj.y < frame.y + frame.height) && decide (frame.y < obj.y + obj.height)

/-- `objectsToRender` of `captureFrameContentAsDataURL` (App.tsx 618-621):
filter the images by bounding-box overlap with the frame and sort ascending
by `zIndex` (`.sort((a, b) => a.zIndex - b.zIndex)`, a stable ascending
sort). The capture then draws exactly this list in this order. -/
def objectsToRender (frame : FrameObject) (objects : List CanvasObject) :
    List CanvasObject :=
  (objects.filter (fun obj => overlapsFrame frame obj)).mergeSort
    (fun a b => decide (a.zIndex ≤ b.zIndex))

/-- C7: frame capture selects exactly the images passing the bounding-box
overlap test (not rotation-aware) and draws them in ascending `zIndex`
order. -/
theorem objectsToRender_spec (frame : FrameObject) (objects : List CanvasObject) :
    (∀ obj : CanvasObject, obj ∈ objectsToRender frame objects ↔
        obj ∈ objects ∧ overlapsFrame frame obj = true) ∧
      (objectsToRender frame objects).Sorted (fun a b => a.zIndex ≤ b.zIndex) := by
  constructor
  · intro obj
    unfold objectsToRender
    rw [List.mem_mergeSort, List.mem_filter]
  · have h := @List.sorted_mergeSort CanvasObject
      (fun a b : CanvasObject => decide (a.zIndex ≤ b.zIndex))
      (fun a b c hab hbc => by
        simp only [decide_eq_true_eq] at *
        exact le_trans hab hbc)
      (fun a b => by
        simp only [Bool.or_eq_true, decide_eq_true_eq]
        exact le_total a.zIndex b.zIndex)
      (objects.filter (fun obj => overlapsFrame frame obj))
    unfold objectsToRender List.Sorted
    exact h.imp (fun hab => by simpa using hab)

-- ## Delete operations and referential integrity (C3)

/-- `deleteSelectedObjects` (App.tsx 1392-1397): removes every selected id
from the image collection of the active canvas. `frames` and `promptNodes`
are left untouched. -/
def deleteSelectedObjects (selectedObjectIds : List String) (c : CanvasState) :
    CanvasState :=
  if 0 < selectedObjectIds.length then
    { c with objects := c.objects.filter (fun o => !selectedObjectIds.contains o.id) }
  else c

/-- `handleDeleteSingleObject` (App.tsx 1019-1023): removes the image and
cascades to any prompt node attached to it. -/
def handleDeleteSingleObject (idToDelete : String) (c : CanvasState) : CanvasState :=
  { c with objects := c.objects.filter (fun o => !(o.id == idToDelete)),
           promptNodes := c.promptNodes.filter (fun p => !(p.attachedToId == idToDelete)) }

/-- `handleDeleteFrame` (App.tsx 953-957): removes the frame and cascades to
any prompt node attached to it. -/
def handleDeleteFrame (idToDelete : String) (c : CanvasState) : CanvasState :=
  { c with frames := c.frames.filter (fun f => !(f.id == idToDelete)),
           promptNodes := c.promptNodes.filter (fun p => !(p.attachedToId == idToDelete)) }

/-- `handleClearCanvas` (App.tsx 1411-1415): empties all three collections. -/
def handleClearCanvas (c : CanvasState) : CanvasState :=
  { c with objects := [], frames := [], promptNodes := [] }

/-- Referential integrity of prompt-node attachment: every node's
`attachedToId` resolves to a live image or frame of the canvas. -/
def noOrphanNodes (c : CanvasState) : Prop :=
  ∀ p ∈ c.promptNodes, (findParent c.objects c.frames p.attachedToId).isSome = true

instance (c : CanvasState) : Decidable (noOrphanNodes c) := by
  unfold noOrphanNodes
  infer_instance

/-- A one-image canvas whose image has an attached prompt node, with that
image selected: the failing input for the delete-selected path. -/
def orphanDemoCanvas : CanvasState :=
  { id := "canvas-1", name := "Default Canvas",
    objects := [{ id := "img-1", src := "blob:img-1", x := 0, y := 0,
                  width := 150, height := 100, rotation := 0, zIndex := 0,
                  isAiResult := false }],
    frames := [{ id := "format-frame-1", src := "", x := 300, y := 0,
                 width := 200, height := 100, rotation := 0, zIndex := 10000,
                 aspectRatio := 2 }],
    promptNodes := [{ id := "prompt-node-1", attachedToId := "img-1", x := -56,
                      y := -40, width := 48, height := 180, zIndex := 20000,
                      prompt := "make it blue" }] }

/-- C3: `deleteSelectedObjects` violates referential integrity. Deleting the
selected image `img-1` (whose prompt node is attached to it) removes the
image but leaves the node behind with a dangling `attachedToId`, while the
single-object delete, the frame delete and the canvas clear all do cascade
on the same canvas. -/
theorem deleteSelectedObjects_leaves_orphan :
    noOrphanNodes orphanDemoCanvas ∧
      ¬ noOrphanNodes (deleteSelectedObjects ["img-1"] orphanDemoCanvas) ∧
      (deleteSelectedObjects ["img-1"] orphanDemoCanvas).promptNodes =
        orphanDemoCanvas.promptNodes ∧
      noOrphanNodes (handleDeleteSingleObject "img-1" orphanDemoCanvas) ∧
      noOrphanNodes (handleDeleteFrame "format-frame-1" orphanDemoCanvas) ∧
      noOrphanNodes (handleClearCanvas orphanDemoCanvas) := by
  decide

-- ## Image import (handleAddImagesToCanvas, App.tsx 977-1017)

/-- A file handed to the import handler, with the intrinsic dimensions its
decoded image reports (`img.width`, `img.height`). -/
structure ImportFile where
  name : String
  naturalWidth : ℚ
  naturalHeight : ℚ
deriving DecidableEq

/-- Embedding of `handleAddImagesToCanvas` (App.tsx 977-1017). `freshId`
stands for `crypto.randomUUID()` (one id per file index), `createObjectURL`
for `URL.createObjectURL`, `center` for the canvas coordinates of the
viewport center, and `error0` for the error state the handler was entered
with (the handler leaves it untouched on the empty-file early return).
Returns the updated canvas and the error state after the call. -/
def handleAddImagesToCanvas (freshId : ℕ → String)
    (createObjectURL : ImportFile → String) (center : ℚ × ℚ)
    (files : List ImportFile) (c : CanvasState) (error0 : Option String) :
    CanvasState × Option String :=
  if files.length = 0 then (c, error0)
  else
    let limit : ℤ := 20
    let currentCount : ℤ := c.objects.length
    let canAddCount : ℤ := limit - currentCount
    if canAddCount ≤ 0 then
      (c, some "Canvas image limit of 20 reached.")
    else
      let filesToAdd := files.take canAddCount.toNat
      let err : Option String :=
        if filesToAdd.length < files.length then
          some ("Only " ++ toString filesToAdd.length ++
            " were added to reach the limit of 20.")
        else none
      let zIndexCounter :=
        if 0 < c.objects.length then jsMaxList (c.objects.map (·.zIndex)) + 1
        else Z_INDEX_BASE_IMAGE
      let n := filesToAdd.length
      let positionedObjects := filesToAdd.enum.map (fun p =>
        let i := p.1
        let file := p.2
        let width : ℚ := 150
        let height : ℚ := 150 / (file.naturalWidth / file.naturalHeight)
        { id := freshId i, src := createObjectURL file,
          x := center.1 - width / 2 + ((i : ℚ) - ((n : ℚ) - 1) / 2) * 30,
          y := center.2 - height / 2 + ((i : ℚ) - ((n : ℚ) - 1) / 2) * 30,
          width := width, height := height, rotation := 0,
          zIndex := zIndexCounter + i, isAiResult := false : CanvasObject })
      ({ c with objects := c.objects ++ positionedObjects }, err)

/-- A canvas already holding 20 images (the per-canvas limit). -/
def fullCanvas : CanvasState :=
  { id := "canvas-full", name := "Full",
    objects := (List.range 20).map (fun i =>
      { id := "img-" ++ toString i, src := "blob:" ++ toString i, x := 0, y := 0,
        width := 150, height := 150, rotation := 0, zIndex := i,
        isAiResult := false }),
    frames := [], promptNodes := [] }

/-- C10 counterexample: importing `k = 0` files into a canvas already at the
20-image limit returns before the limit check (`if (files.length === 0)
return`), so nothing is added but, contrary to the claim, no error is
surfaced either (the error state is left exactly as it was, here `none`). -/
theorem handleAddImagesToCanvas_zero_files_no_error :
    handleAddImagesToCanvas (fun i => "new-" ++ toString i) (fun f => f.name)
        (0, 0) [] fullCanvas none = (fullCanvas, none) ∧
      20 ≤ fullCanvas.objects.length := by
  constructor
  · rfl
  · decide

/-- C10 (amended: at least one file selected): for an import of `k ≥ 1`
files into a canvas holding `n` images, if `n ≥ 20` nothing is added and the
limit error is surfaced; otherwise exactly `min k (20 - n)` images are
added, with the drop error surfaced exactly when files were dropped to stay
at the limit. -/
theorem handleAddImagesToCanvas_limit (freshId : ℕ → String)
    (createObjectURL : ImportFile → String) (center : ℚ × ℚ)
    (files : List ImportFile) (c : CanvasState) (error0 : Option String)
    (hk : files ≠ []) :
    (20 ≤ c.objects.length →
      handleAddImagesToCanvas freshId createObjectURL center files c error0 =
        (c, some "Canvas image limit of 20 reached.")) ∧
      (c.objects.length < 20 →
        (handleAddImagesToCanvas freshId createObjectURL center files c
              error0).1.objects.length =
            c.objects.length + min files.length (20 - c.objects.length) ∧
          (20 - c.objects.length < files.length →
            (handleAddImagesToCanvas freshId createObjectURL center files c
                error0).2 =
              some ("Only " ++ toString (20 - c.objects.length) ++
                " were added to reach the limit of 20.")) ∧
          (files.length ≤ 20 - c.objects.length →
            (handleAddImagesToCanvas freshId createObjectURL center files c
                error0).2 = none)) := by
  have hlen : ¬ files.length = 0 := fun h => hk (List.length_eq_zero.mp h)
  constructor
  · intro h20
    simp only [handleAddImagesToCanvas]
    rw [if_neg hlen, if_pos (by omega)]
  · intro hlt
    have hpos : ¬ ((20 : ℤ) - (c.objects.length : ℤ) ≤ 0) := by omega
    have htonat : ((20 : ℤ) - (c.objects.length : ℤ)).toNat =
        20 - c.objects.length := by omega
    simp only [handleAddImagesToCanvas]
    rw [if_neg hlen, if_neg hpos]
    refine ⟨?_, ?_, ?_⟩
    · simp only [List.length_append, List.length_map, List.enum_length,
        List.length_take, htonat]
      omega
    · intro hdrop
      have hmin : min ((20 : ℤ) - (c.objects.length : ℤ)).toNat files.length =
          20 - c.objects.length := by omega
      simp only [List.length_take, hmin]
      rw [if_pos hdrop]
    · intro hfit
      simp only [List.length_take, htonat]
      rw [if_neg (by omega)]

/-- Witness for the amended C10 theorem at a concrete input: one file into
the 20-image canvas. -/
theorem handleAddImagesToCanvas_limit_witness :
    ([ImportFile.mk "f1" 4 3] : List ImportFile) ≠ [] ∧
      ((20 ≤ fullCanvas.objects.length →
        handleAddImagesToCanvas (fun i => "w-" ++ toString i) (fun f => f.name)
            (0, 0) [ImportFile.mk "f1" 4 3] fullCanvas none =
          (fullCanvas, some "Canvas image limit of 20 reached.")) ∧
        (fullCanvas.objects.length < 20 →
          (handleAddImagesToCanvas (fun i => "w-" ++ toString i) (fun f => f.name)
                (0, 0) [ImportFile.mk "f1" 4 3] fullCanvas none).1.objects.length =
              fullCanvas.objects.length +
                min [ImportFile.mk "f1" 4 3].length
                  (20 - fullCanvas.objects.length) ∧
            (20 - fullCanvas.objects.length < [ImportFile.mk "f1" 4 3].length →
              (handleAddImagesToCanvas (fun i => "w-" ++ toString i)
                  (fun f => f.name) (0, 0) [ImportFile.mk "f1" 4 3] fullCanvas
                  none).2 =
                some ("Only " ++ toString (20 - fullCanvas.objects.length) ++
                  " were added to reach the limit of 20.")) ∧
            ([ImportFile.mk "f1" 4 3].length ≤ 20 - fullCanvas.objects.length →
              (handleAddImagesToCanvas (fun i => "w-" ++ toString i)
                  (fun f => f.name) (0, 0) [ImportFile.mk "f1" 4 3] fullCanvas
                  none).2 = none))) :=
  ⟨by decide,
    handleAddImagesToCanvas_limit (fun i => "w-" ++ toString i) (fun f => f.name)
      (0, 0) [ImportFile.mk "f1" 4 3] fullCanvas none (by decide)⟩

-- ## Job orchestration: the concurrency cap (App.tsx 1417-1584)

/-- Truthiness test of JavaScript `!apiKey` on a record lookup: missing key
or empty string are falsy. -/
def jsFalsyOptStr (o : Option String) : Bool :=
  match o with
  | none => true
  | some s => s = ""

/-- Embedding of `s.trim()`: strip leading and trailing whitespace. -/
def jsTrim (s : String) : String :=
  ⟨((s.data.dropWhile Char.isWhitespace).reverse.dropWhile
      Char.isWhitespace).reverse⟩

/-- One entry of the `activeCombinedJobs` state (App.tsx 670):
`{ id, provider: 'SD' | 'NB' }`. -/
structure ActiveJob where
  id : String
  provider : String
deriving DecidableEq

/-- The process-wide orchestration state touched by the three submission
entry points: the in-flight job list, the surfaced error, the per-provider
call counters, the global edit prompt and text-gen prompt, and the stored
API keys (`apiConfigs`). -/
structure OrchestratorState where
  activeCombinedJobs : List ActiveJob
  error : Option String
  sdCallCount : ℕ
  nbCallCount : ℕ
  prompt : String
  textGenPrompt : String
  apiConfigs : List (String × String)
deriving DecidableEq

/-- The work an accepted submission performs after its synchronous prefix:
the job that was registered and the capture/submit it proceeds to. -/
structure LaunchedJob where
  jobId : String
  provider : String
  targetId : String
  apiPrompt : String
deriving DecidableEq

/-- Embedding of the synchronous prefix of `handleSendObjectToApi`
(App.tsx 1417-1475), up to and including registering the job in
`activeCombinedJobs` (the last mutation before the first `await`): cap
check, target lookup, nested-prompt-node safety check for frames, prompt
resolution, API-key check, call-count bump, job registration. Returns the
updated state and the launched job, `none` when the request was rejected. -/
def handleSendObjectToApi (canvas : CanvasState) (objectId targetApi jobId : String)
    (st : OrchestratorState) : OrchestratorState × Option LaunchedJob :=
  if 10 ≤ st.activeCombinedJobs.length then
    ({ st with error := some "Maximum of 10 concurrent AI jobs reached." }, none)
  else
    let isFrame := strStartsWith objectId "format-frame-"
    let originalObject : Option (CanvasObject ⊕ FrameObject) :=
      if isFrame then (canvas.frames.find? (fun f => f.id == objectId)).map Sum.inr
      else (canvas.objects.find? (fun o => o.id == objectId)).map Sum.inl
    match originalObject with
    | none => ({ st with error := some "Could not find the source object to process." }, none)
    | some obj =>
      let nestedConflict : Bool :=
        match obj with
        | Sum.inr frame =>
          let objectIdsInFrame : List String :=
            (canvas.objects.filter (fun o => overlapsFrame frame o)).map
              (fun o => o.id)
          canvas.promptNodes.any (fun node =>
            objectIdsInFrame.contains node.attachedToId)
        | Sum.inl _ => false
      if nestedConflict then
        ({ st with error := some "Cannot process frame: An image inside the frame has its own prompt node attached. Please remove it and attach a single prompt node to the frame itself." }, none)
      else
        let apiPrompt :=
          match canvas.promptNodes.find? (fun p => p.attachedToId == objectId) with
          | some node => node.prompt
          | none => st.prompt
        if jsTrim apiPrompt = "" then
          ({ st with error := some "Please enter an edit prompt or assign one to the selected object's node." }, none)
        else
          let provider := if targetApi = "NB" then "gemini" else "seadream"
          if jsFalsyOptStr (List.lookup provider st.apiConfigs) then
            ({ st with error := some ("API key for " ++ provider ++ " is required.") }, none)
          else
            let st1 := { st with error := none }
            let st2 :=
              if targetApi = "SD" then { st1 with sdCallCount := st1.sdCallCount + 1 }
              else { st1 with nbCallCount := st1.nbCallCount + 1 }
            ({ st2 with activeCombinedJobs :=
                st2.activeCombinedJobs ++ [⟨jobId, targetApi⟩] },
              some ⟨jobId, targetApi, objectId, apiPrompt⟩)

/-- Embedding of the synchronous prefix of `handleGenerateTextToImage`
(App.tsx 1560-1575): prompt/key check, cap check, call-count bump, job
registration. -/
def handleGenerateTextToImage (jobId : String) (st : OrchestratorState) :
    OrchestratorState × Option LaunchedJob :=
  let apiKey := List.lookup "seadream" st.apiConfigs
  if jsTrim st.textGenPrompt = "" || jsFalsyOptStr apiKey then
    ({ st with error := some "SeaDream API key must be connected and a prompt provided." }, none)
  else if 10 ≤ st.activeCombinedJobs.length then
    ({ st with error := some "Maximum of 10 concurrent AI jobs reached." }, none)
  else
    let st1 := { st with error := none, sdCallCount := st.sdCallCount + 1 }
    ({ st1 with activeCombinedJobs := st1.activeCombinedJobs ++ [⟨jobId, "SD"⟩] },
      some ⟨jobId, "SD", "", st.textGenPrompt⟩)

/-- Embedding of the synchronous prefix of `handleUpscaleSingleImage`
(App.tsx 1512-1535): key check, cap check, call-count bump, target lookup,
job registration. -/
def handleUpscaleSingleImage (canvas : CanvasState) (objectId jobId : String)
    (st : OrchestratorState) : OrchestratorState × Option LaunchedJob :=
  if jsFalsyOptStr (List.lookup "seadream" st.apiConfigs) then
    ({ st with error := some "SeaDream API key must be connected for upscaling." }, none)
  else if 10 ≤ st.activeCombinedJobs.length then
    ({ st with error := some "Maximum of 10 concurrent AI jobs reached." }, none)
  else
    let st1 := { st with error := none, sdCallCount := st.sdCallCount + 1 }
    match canvas.objects.find? (fun o => o.id == objectId) with
    | none => ({ st1 with error := some "Could not find source object to upscale." }, none)
    | some _ =>
      ({ st1 with activeCombinedJobs := st1.activeCombinedJobs ++ [⟨jobId, "SD"⟩] },
        some ⟨jobId, "SD", objectId, "CREATIVELY UPSCALE TO 16K RESOLUTION"⟩)

/-- C8: with 10 or more jobs in flight, every submission entry point rejects
the request with the cap validation error before any capture or network
work (no `LaunchedJob` is produced), leaving the active-jobs set and the
call counters untouched — for any target and either provider tag. -/
theorem concurrencyCap_rejects (canvas : CanvasState)
    (objectId targetApi jobId : String) (st : OrchestratorState)
    (hcap : 10 ≤ st.activeCombinedJobs.length)
    (hprompt : jsTrim st.textGenPrompt ≠ "")
    (hkey : jsFalsyOptStr (List.lookup "seadream" st.apiConfigs) = false) :
    handleSendObjectToApi canvas objectId targetApi jobId st =
        ({ st with error := some "Maximum of 10 concurrent AI jobs reached." }, none) ∧
      handleGenerateTextToImage jobId st =
        ({ st with error := some "Maximum of 10 concurrent AI jobs reached." }, none) ∧
      handleUpscaleSingleImage canvas objectId jobId st =
        ({ st with error := some "Maximum of 10 concurrent AI jobs reached." }, none) := by
  refine ⟨?_, ?_, ?_⟩
  · unfold handleSendObjectToApi
    rw [if_pos hcap]
  · unfold handleGenerateTextToImage
    rw [if_neg (by simp [hprompt, hkey]), if_pos hcap]
  · unfold handleUpscaleSingleImage
    rw [if_neg (by simp [hkey]), if_pos hcap]

/-- An orchestration state with exactly 10 jobs in flight, a nonempty
text-gen prompt and a stored SeaDream key. -/
def cappedState : OrchestratorState :=
  { activeCombinedJobs := (List.range 10).map (fun i => ⟨"job-" ++ toString i, "SD"⟩),
    error := none, sdCallCount := 10, nbCallCount := 0,
    prompt := "edit it", textGenPrompt := "a cat", apiConfigs := [("seadream", "sk-1")] }

/-- Witness for the C8 theorem at a concrete input: an 11th submission
against `cappedState`. -/
theorem concurrencyCap_rejects_witness :
    10 ≤ cappedState.activeCombinedJobs.length ∧
      jsTrim cappedState.textGenPrompt ≠ "" ∧
      jsFalsyOptStr (List.lookup "seadream" cappedState.apiConfigs) = false ∧
      (handleSendObjectToApi orphanDemoCanvas "img-1" "SD" "job-new" cappedState =
          ({ cappedState with
              error := some "Maximum of 10 concurrent AI jobs reached." }, none) ∧
        handleGenerateTextToImage "job-new" cappedState =
          ({ cappedState with
              error := some "Maximum of 10 concurrent AI jobs reached." }, none) ∧
        handleUpscaleSingleImage orphanDemoCanvas "img-1" "job-new" cappedState =
          ({ cappedState with
              error := some "Maximum of 10 concurrent AI jobs reached." }, none)) :=
  ⟨by decide, by decide, by decide,
    concurrencyCap_rejects orphanDemoCanvas "img-1" "SD" "job-new" cappedState
      (by decide) (by decide) (by decide)⟩

-- ## SeaDream polling loops (geminiService.ts 175-219 and 261-305)

/-- One poll iteration's outcome as seen by the loop: a non-success HTTP
response (`!resultResponse.ok`, retried as transient) or a JSON body with
`data.status`, `data.outputs` and `data.error`. -/
inductive PollResponse where
  | httpFail (status : ℕ)
  | json (status : String) (outputs : List String) (error : Option String)
deriving DecidableEq

/-- Where the polling loop terminates: the `completed` branch entering the
result download with its output URL, the `completed`-without-output throw,
the explicit-`failed` throw (carrying the message the source builds), or
falling out of the `while` into the timeout throw. -/
inductive PollTermination where
  | completed (outputUrl : String)
  | completedNoOutput
  | providerFailed (message : String)
  | timedOut (message : String)
deriving DecidableEq

/-- The polling `while` loop shared verbatim by `editImageWithSeaDream`
(geminiService.ts 179-219) and `generateImageWithSeaDream` (265-305), the
two differing only in their message strings. `respond` is the abstract
stream of poll responses (`k` indexes iterations), `fuel` the number of
iterations the `Date.now() - pollingStartTime < POLLING_TIMEOUT` guard still
admits: with a 5000 ms sleep opening every iteration and a 180000 ms budget,
36 iterations. Status checks follow the source order: `completed` first,
then `failed`; anything else — including non-success HTTP — loops. -/
def pollForResult (failMsg timeoutMsg : String) (respond : ℕ → PollResponse) :
    ℕ → ℕ → PollTermination
  | _, 0 => .timedOut timeoutMsg
  | k, fuel + 1 =>
    match respond k with
    | .httpFail _ => pollForResult failMsg timeoutMsg respond (k + 1) fuel
    | .json status outputs error =>
      if status = "completed" then
        match outputs.head? with
        | some url => .completed url
        | none => .completedNoOutput
      else if status = "failed" then
        .providerFailed (failMsg ++ jsOrElse error "Unknown error")
      else pollForResult failMsg timeoutMsg respond (k + 1) fuel

/-- `180000 / 5000`: poll iterations the 3-minute budget admits. -/
def POLL_BUDGET_ITERATIONS : ℕ := 36

/-- The polling loop of `editImageWithSeaDream` with its message strings
(geminiService.ts 215, 219). -/
def editImageWithSeaDreamPoll (respond : ℕ → PollResponse) : PollTermination :=
  pollForResult "SeaDream task failed: " "SeaDream task timed out after 3 minutes."
    respond 0 POLL_BUDGET_ITERATIONS

/-- The polling loop of `generateImageWithSeaDream` with its message strings
(geminiService.ts 301, 305). -/
def generateImageWithSeaDreamPoll (respond : ℕ → PollResponse) : PollTermination :=
  pollForResult "SeaDream text-gen task failed: "
    "SeaDream text-gen task timed out after 3 minutes." respond 0
    POLL_BUDGET_ITERATIONS

/-- A poll response the loop treats as non-terminal: a non-success HTTP
response, or a JSON status that is neither `completed` nor `failed`. -/
def transientResponse : PollResponse → Prop
  | .httpFail _ => True
  | .json status _ _ => status ≠ "completed" ∧ status ≠ "failed"

theorem pollForResult_timeout (failMsg timeoutMsg : String)
    (respond : ℕ → PollResponse) :
    ∀ fuel k, (∀ j, k ≤ j → j < k + fuel → transientResponse (respond j)) →
      pollForResult failMsg timeoutMsg respond k fuel = .timedOut timeoutMsg := by
  intro fuel
  induction fuel with
  | zero => intro k _; rfl
  | succ n ih =>
    intro k h
    have hk := h k le_rfl (by omega)
    unfold pollForResult
    cases hr : respond k with
    | httpFail code =>
      exact ih (k + 1) (fun j hj1 hj2 => h j (by omega) (by omega))
    | json status outputs error =>
      rw [hr] at hk
      obtain ⟨hc, hf⟩ := hk
      dsimp only
      rw [if_neg hc, if_neg hf]
      exact ih (k + 1) (fun j hj1 hj2 => h j (by omega) (by omega))

/-- C9: an explicit `failed` status on the very first poll terminates both
SeaDream polling loops immediately with the provider-failure throw carrying
the provider-supplied detail (never the timeout throw), while a full budget
of non-terminal responses (transient HTTP failures or pending statuses)
ends in the timeout throw. -/
theorem seaDreamPoll_failed_immediate_timeout_only_on_budget
    (respond₁ respond₂ : ℕ → PollResponse) (outs : List String)
    (err : Option String)
    (h1 : respond₁ 0 = .json "failed" outs err)
    (h2 : ∀ j, j < POLL_BUDGET_ITERATIONS → transientResponse (respond₂ j)) :
    editImageWithSeaDreamPoll respond₁ =
        .providerFailed ("SeaDream task failed: " ++ jsOrElse err "Unknown error") ∧
      generateImageWithSeaDreamPoll respond₁ =
        .providerFailed ("SeaDream text-gen task failed: " ++
          jsOrElse err "Unknown error") ∧
      (∀ msg, editImageWithSeaDreamPoll respond₁ ≠ .timedOut msg) ∧
      editImageWithSeaDreamPoll respond₂ =
        .timedOut "SeaDream task timed out after 3 minutes." ∧
      generateImageWithSeaDreamPoll respond₂ =
        .timedOut "SeaDream text-gen task timed out after 3 minutes." := by
  have hfirst : ∀ failMsg timeoutMsg,
      pollForResult failMsg timeoutMsg respond₁ 0 POLL_BUDGET_ITERATIONS =
        .providerFailed (failMsg ++ jsOrElse err "Unknown error") := by
    intro failMsg timeoutMsg
    show pollForResult failMsg timeoutMsg respond₁ 0 (35 + 1) = _
    unfold pollForResult
    rw [h1]
    dsimp only
    rw [if_neg (by decide), if_pos rfl]
  refine ⟨hfirst _ _, hfirst _ _, ?_, ?_, ?_⟩
  · intro msg
    rw [show editImageWithSeaDreamPoll respond₁ =
      pollForResult "SeaDream task failed: "
        "SeaDream task timed out after 3 minutes." respond₁ 0
        POLL_BUDGET_ITERATIONS from rfl, hfirst _ _]
    intro hcontra
    exact PollTermination.noConfusion hcontra
  · exact pollForResult_timeout _ _ respond₂ POLL_BUDGET_ITERATIONS 0
      (fun j hj1 hj2 => h2 j (by omega))
  · exact pollForResult_timeout _ _ respond₂ POLL_BUDGET_ITERATIONS 0
      (fun j hj1 hj2 => h2 j (by omega))

/-- Witness for the C9 theorem: a stream answering `failed` (with detail
`"boom"`) at once, and a stream answering HTTP 500 forever. -/
theorem seaDreamPoll_witness :
    (fun _ : ℕ => PollResponse.json "failed" [] (some "boom")) 0 =
        PollResponse.json "failed" [] (some "boom") ∧
      (∀ j, j < POLL_BUDGET_ITERATIONS →
        transientResponse ((fun _ : ℕ => PollResponse.httpFail 500) j)) ∧
      (editImageWithSeaDreamPoll (fun _ => PollResponse.json "failed" [] (some "boom")) =
          .providerFailed ("SeaDream task failed: " ++
            jsOrElse (some "boom") "Unknown error") ∧
        generateImageWithSeaDreamPoll
            (fun _ => PollResponse.json "failed" [] (some "boom")) =
          .providerFailed ("SeaDream text-gen task failed: " ++
            jsOrElse (some "boom") "Unknown error") ∧
        (∀ msg, editImageWithSeaDreamPoll
            (fun _ => PollResponse.json "failed" [] (some "boom")) ≠ .timedOut msg) ∧
        editImageWithSeaDreamPoll (fun _ => PollResponse.httpFail 500) =
          .timedOut "SeaDream task timed out after 3 minutes." ∧
        generateImageWithSeaDreamPoll (fun _ => PollResponse.httpFail 500) =
          .timedOut "SeaDream text-gen task timed out after 3 minutes.") :=
  ⟨rfl, fun _ _ => trivial,
    seaDreamPoll_failed_immediate_timeout_only_on_budget
      (fun _ => PollResponse.json "failed" [] (some "boom"))
      (fun _ => PollResponse.httpFail 500) [] (some "boom") rfl
      (fun _ _ => trivial)⟩

-- ## Interaction state machine (App.tsx 694-707, 1137-1314)

/-- The viewport transform: `{ zoom, pan }` (App.tsx 668). -/
structure ViewTransform where
  zoom : ℚ
  panX : ℚ
  panY : ℚ
deriving DecidableEq

/-- The mouse-event fields the interaction handlers read. -/
structure MouseEvent where
  clientX : ℚ
  clientY : ℚ
  movementX : ℚ
  movementY : ℚ
  shiftKey : Bool
deriving DecidableEq

/-- `interactionRef.current.type` values (App.tsx 695). -/
inductive InteractionType where
  | move
  | resizeBR
  | rotate
  | pan
deriving DecidableEq

/-- `interactionRef.current` (App.tsx 694-707). `startPositions` is the
entry list of the `Object.fromEntries` record, looked up with
JavaScript's later-entries-win semantics. -/
structure InteractionRef where
  type : Option InteractionType
  targetId : String
  startX : ℚ
  startY : ℚ
  startWidth : ℚ
  startHeight : ℚ
  startRotation : ℚ
  startAspectRatio : ℚ
  centerCanvasX : ℚ
  centerCanvasY : ℚ
  movedObjectIds : List String
  startPositions : List (String × ℚ × ℚ)
deriving DecidableEq

/-- The interaction-relevant application state: the active canvas, the
selection, the interaction scratch record, the view transform and the
viewport's screen origin (`getBoundingClientRect().left/top`). -/
structure AppState where
  canvas : CanvasState
  selectedObjectIds : List String
  interaction : InteractionRef
  view : ViewTransform
  viewportLeft : ℚ
  viewportTop : ℚ
deriving DecidableEq

/-- Property access on `Object.fromEntries(entries)`: the value of the last
entry bearing the key, `none` when no entry does. -/
def fromEntriesGet : List (String × ℚ × ℚ) → String → Option (ℚ × ℚ)
  | [], _ => none
  | (k, vx, vy) :: rest, q =>
    match fromEntriesGet rest q with
    | some v => some v
    | none => if q = k then some (vx, vy) else none

/-- `getCanvasCoordinates` (App.tsx 824-831):
`((screen - rect.left/top - pan) / zoom)`. -/
def getCanvasCoordinates (s : AppState) (screenX screenY : ℚ) : ℚ × ℚ :=
  ((screenX - s.viewportLeft - s.view.panX) / s.view.zoom,
    (screenY - s.viewportTop - s.view.panY) / s.view.zoom)

/-- The `moveTarget` closure of `handleMouseMove` (App.tsx 1156-1160),
instantiated at images: shift to the session-start snapshot plus the
current canvas-space delta; an object with no snapshot is left alone. -/
def moveTargetObj (startPositions : List (String × ℚ × ℚ)) (dx dy : ℚ)
    (target : CanvasObject) : CanvasObject :=
  match fromEntriesGet startPositions target.id with
  | none => target
  | some sp => { target with x := sp.1 + dx, y := sp.2 + dy }

/-- The `moveTarget` closure of `handleMouseMove` (App.tsx 1156-1160),
instantiated at frames. -/
def moveTargetFrame (startPositions : List (String × ℚ × ℚ)) (dx dy : ℚ)
    (target : FrameObject) : FrameObject :=
  match fromEntriesGet startPositions target.id with
  | none => target
  | some sp => { target with x := sp.1 + dx, y := sp.2 + dy }

/-- The prompt-node sync of every `handleMouseMove` tick (App.tsx
1194-1208): a node whose `attachedToId` resolves against the updated
collections is snapped to the derived position and its height re-synced to
the parent; an orphan is left unchanged. -/
def syncPromptNode (objects : List CanvasObject) (frames : List FrameObject)
    (node : PromptNodeObject) : PromptNodeObject :=
  match findParent objects frames node.attachedToId with
  | some parent =>
    { node with
        x := parentX parent - PROMPT_NODE_WIDTH - 8,
        y := parentY parent + parentHeight parent / 2 - PROMPT_NODE_HEIGHT / 2,
        height := parentHeight parent }
  | none => node

/-- The move/resize/rotate branch of `handleMouseMove` (App.tsx 1169-1192):
the updated image and frame collections, before the prompt-node sync.
`atan2deg` abstracts `Math.atan2(dy, dx) * (180 / Math.PI)` of the rotate
branch, irrational-valued and irrelevant to every claim proved here. -/
def tickTargets (atan2deg : ℚ → ℚ → ℚ) (e : MouseEvent) (s : AppState)
    (ty : InteractionType) : List CanvasObject × List FrameObject :=
  let r := s.interaction
  let zoom := s.view.zoom
  let dx := (e.clientX - r.startX) / zoom
  let dy := (e.clientY - r.startY) / zoom
  let c := s.canvas
  if ty = InteractionType.move then
    if strStartsWith r.targetId "format-frame-" then
      (c.objects, c.frames.map (fun f =>
        if r.movedObjectIds.contains f.id then
          moveTargetFrame r.startPositions dx dy f
        else f))
    else if strStartsWith r.targetId "prompt-node-" then
      (c.objects, c.frames)
    else
      (c.objects.map (fun obj =>
        if r.movedObjectIds.contains obj.id then
          moveTargetObj r.startPositions dx dy obj
        else obj), c.frames)
  else if ty = InteractionType.resizeBR then
    if strStartsWith r.targetId "format-frame-" then
      let newWidth := max 50 (r.startWidth + dx)
      let newHeight := newWidth / r.startAspectRatio
      (c.objects, c.frames.map (fun f =>
        if f.id == r.targetId then { f with width := newWidth, height := newHeight }
        else f))
    else
      let newWidth := max 20 (r.startWidth + dx)
      let newHeight := max 20 (r.startHeight + dy)
      (c.objects.map (fun o =>
        if o.id == r.targetId then { o with width := newWidth, height := newHeight }
        else o), c.frames)
  else
    if ty = InteractionType.rotate && !strStartsWith r.targetId "format-frame-" &&
        !strStartsWith r.targetId "prompt-node-" then
      let mousePos := getCanvasCoordinates s e.clientX e.clientY
      let startPos := getCanvasCoordinates s r.startX r.startY
      let angle := atan2deg (mousePos.2 - r.centerCanvasY) (mousePos.1 - r.centerCanvasX)
      let startAngle :=
        atan2deg (startPos.2 - r.centerCanvasY) (startPos.1 - r.centerCanvasX)
      (c.objects.map (fun o =>
        if o.id == r.targetId then
          { o with rotation := r.startRotation + (angle - startAngle) }
        else o), c.frames)
    else (c.objects, c.frames)

/-- Embedding of `handleMouseMove` (App.tsx 1137-1213): no session is a
no-op; a pan session accumulates raw screen deltas into the pan; otherwise,
with a nonempty target id, the move/resize/rotate branch updates the
collections and every prompt node is synced against the result. -/
def handleMouseMove (atan2deg : ℚ → ℚ → ℚ) (e : MouseEvent) (s : AppState) :
    AppState :=
  match s.interaction.type with
  | none => s
  | some ty =>
    if ty = InteractionType.pan then
      { s with view :=
          { s.view with
            panX := s.view.panX + e.movementX
            panY := s.view.panY + e.movementY } }
    else if s.interaction.targetId = "" then s
    else
      let p := tickTargets atan2deg e s ty
      { s with canvas :=
          { s.canvas with
            objects := p.1
            frames := p.2
            promptNodes := s.canvas.promptNodes.map (syncPromptNode p.1 p.2) } }

/-- `targetObj.x` through the image/frame/node union of
`handleInteractionStart` (App.tsx 1242-1245). -/
def tgtX : CanvasObject ⊕ FrameObject ⊕ PromptNodeObject → ℚ
  | Sum.inl o => o.x
  | Sum.inr (Sum.inl f) => f.x
  | Sum.inr (Sum.inr p) => p.x

/-- `targetObj.y` through the union. -/
def tgtY : CanvasObject ⊕ FrameObject ⊕ PromptNodeObject → ℚ
  | Sum.inl o => o.y
  | Sum.inr (Sum.inl f) => f.y
  | Sum.inr (Sum.inr p) => p.y

/-- `targetObj.width` through the union. -/
def tgtWidth : CanvasObject ⊕ FrameObject ⊕ PromptNodeObject → ℚ
  | Sum.inl o => o.width
  | Sum.inr (Sum.inl f) => f.width
  | Sum.inr (Sum.inr p) => p.width

/-- `targetObj.height` through the union. -/
def tgtHeight : CanvasObject ⊕ FrameObject ⊕ PromptNodeObject → ℚ
  | Sum.inl o => o.height
  | Sum.inr (Sum.inl f) => f.height
  | Sum.inr (Sum.inr p) => p.height

/-- `targetObj.id` through the union. -/
def tgtId : CanvasObject ⊕ FrameObject ⊕ PromptNodeObject → String
  | Sum.inl o => o.id
  | Sum.inr (Sum.inl f) => f.id
  | Sum.inr (Sum.inr p) => p.id

/-- `(targetObj as CanvasObject).rotation || 0` (App.tsx 1273): prompt nodes
have no rotation field (`undefined || 0 = 0`); on numbers `r || 0` is the
identity (`0 || 0 = 0`). -/
def tgtRotation : CanvasObject ⊕ FrameObject ⊕ PromptNodeObject → ℚ
  | Sum.inl o => o.rotation
  | Sum.inr (Sum.inl f) => f.rotation
  | Sum.inr (Sum.inr _) => 0

/-- `(targetObj as FrameObject).aspectRatio || 1` (App.tsx 1274): only
frames carry the field (`undefined || 1 = 1`), and a zero ratio is falsy. -/
def tgtAspectRatio : CanvasObject ⊕ FrameObject ⊕ PromptNodeObject → ℚ
  | Sum.inr (Sum.inl f) => if f.aspectRatio = 0 then 1 else f.aspectRatio
  | _ => 1

/-- The selection update of `handleInteractionStart` (App.tsx 1226-1240):
images and frames replace or shift-toggle the selection; prompt nodes are
always the sole selection. -/
def nextSelectedIds (id : String) (e : MouseEvent) (sel : List String) :
    List String :=
  let isFrame := strStartsWith id "format-frame-"
  let isNode := strStartsWith id "prompt-node-"
  let isImage := !isFrame && !isNode
  if isImage || isFrame then
    if !e.shiftKey then
      if sel.contains id then sel else [id]
    else
      if sel.contains id then sel.filter (fun sid => !(sid == id))
      else sel ++ [id]
  else [id]

/-- Embedding of `handleInteractionStart` (App.tsx 1222-1314): selection
update, target lookup (object kind sniffed from the id's string lead), the
explicit block that keeps a pointer-down on a prompt node from starting a
move session, the interaction-record snapshot (`Object.fromEntries` start
positions of every object that will move plus the prompt nodes attached to
them), and the z-promotion of the target in its own band plus any attached
node in the node band. -/
def handleInteractionStart (id : String) (e : MouseEvent) (ty : InteractionType)
    (s : AppState) : AppState :=
  let isFrame := strStartsWith id "format-frame-"
  let isNode := strStartsWith id "prompt-node-"
  let isImage := !isFrame && !isNode
  let currentSelectedIds := nextSelectedIds id e s.selectedObjectIds
  let s1 := { s with selectedObjectIds := currentSelectedIds }
  let targetObj : Option (CanvasObject ⊕ FrameObject ⊕ PromptNodeObject) :=
    if isFrame then
      (s.canvas.frames.find? (fun f => f.id == id)).map (fun f => Sum.inr (Sum.inl f))
    else if isNode then
      (s.canvas.promptNodes.find? (fun p => p.id == id)).map (fun p => Sum.inr (Sum.inr p))
    else (s.canvas.objects.find? (fun o => o.id == id)).map Sum.inl
  match targetObj with
  | none => s1
  | some tgt =>
    if isNode && ty = InteractionType.move then s1
    else
      let movedObjectIds :=
        if isNode then [id] else if isFrame then [id] else currentSelectedIds
      let startEntries :=
        (if isNode || isFrame then [(tgtId tgt, tgtX tgt, tgtY tgt)]
         else (s.canvas.objects.filter (fun o => currentSelectedIds.contains o.id)).map
            (fun o => (o.id, o.x, o.y))) ++
          (s.canvas.promptNodes.filter (fun p =>
            movedObjectIds.contains p.attachedToId)).map (fun p => (p.id, p.x, p.y))
      let newRef : InteractionRef :=
        { type := some ty, targetId := id, startX := e.clientX, startY := e.clientY,
          startWidth := tgtWidth tgt, startHeight := tgtHeight tgt,
          startRotation := tgtRotation tgt, startAspectRatio := tgtAspectRatio tgt,
          centerCanvasX := tgtX tgt + tgtWidth tgt / 2,
          centerCanvasY := tgtY tgt + tgtHeight tgt / 2,
          movedObjectIds := movedObjectIds, startPositions := startEntries }
      let c := s.canvas
      let updatedObjects :=
        if isImage then
          let maxImageZ :=
            if 0 < c.objects.length then jsMaxList (c.objects.map (fun o => o.zIndex))
            else Z_INDEX_BASE_IMAGE - 1
          c.objects.map (fun obj =>
            if obj.id == id then { obj with zIndex := maxImageZ + 1 } else obj)
        else c.objects
      let updatedFrames :=
        if isFrame then
          let maxFrameZ :=
            if 0 < c.frames.length then jsMaxList (c.frames.map (fun f => f.zIndex))
            else Z_INDEX_BASE_FRAME - 1
          c.frames.map (fun f =>
            if f.id == id then { f with zIndex := maxFrameZ + 1 } else f)
        else c.frames
      let nodesAfterSelfPromotion :=
        if isNode then
          let maxNodeZ :=
            if 0 < c.promptNodes.length then
              jsMaxList (c.promptNodes.map (fun p => p.zIndex))
            else Z_INDEX_BASE_PROMPT_NODE - 1
          c.promptNodes.map (fun p =>
            if p.id == id then { p with zIndex := maxNodeZ + 1 } else p)
        else c.promptNodes
      let updatedPromptNodes :=
        if isImage || isFrame then
          let maxNodeZ :=
            if 0 < nodesAfterSelfPromotion.length then
              jsMaxList (nodesAfterSelfPromotion.map (fun p => p.zIndex))
            else Z_INDEX_BASE_PROMPT_NODE - 1
          nodesAfterSelfPromotion.map (fun p =>
            if p.attachedToId == id then { p with zIndex := maxNodeZ + 1 } else p)
        else nodesAfterSelfPromotion
      { s1 with
        interaction := newRef
        canvas :=
          { c with
            objects := updatedObjects
            frames := updatedFrames
            promptNodes := updatedPromptNodes } }

theorem node_id_not_frame_id (s : String)
    (h : strStartsWith s "prompt-node-" = true) :
    strStartsWith s "format-frame-" = false := by
  unfold strStartsWith at h ⊢
  rw [show "prompt-node-".data = 'p' :: "rompt-node-".data from rfl] at h
  rw [show "format-frame-".data = 'f' :: "ormat-frame-".data from rfl]
  cases hd : s.data with
  | nil => rw [hd] at h; simp [leadMatch] at h
  | cons c cs =>
    rw [hd] at h
    simp only [leadMatch, Bool.and_eq_true, decide_eq_true_eq] at h
    obtain ⟨hc, _⟩ := h
    subst hc
    simp [leadMatch]

theorem frame_id_not_node_id (s : String)
    (h : strStartsWith s "format-frame-" = true) :
    strStartsWith s "prompt-node-" = false := by
  unfold strStartsWith at h ⊢
  rw [show "format-frame-".data = 'f' :: "ormat-frame-".data from rfl] at h
  rw [show "prompt-node-".data = 'p' :: "rompt-node-".data from rfl]
  cases hd : s.data with
  | nil => rw [hd] at h; simp [leadMatch] at h
  | cons c cs =>
    rw [hd] at h
    simp only [leadMatch, Bool.and_eq_true, decide_eq_true_eq] at h
    obtain ⟨hc, _⟩ := h
    subst hc
    simp [leadMatch]

/-- C4 (amended): a pointer-down on a prompt node registers the node as the
sole selection and nothing else — no move session starts, the interaction
record is untouched, and no field of any object changes (in particular, no
z-promotion happens: the handler returns before its z-promotion block). -/
theorem nodePointerDown_selection_only (s : AppState) (id : String)
    (e : MouseEvent) (hn : strStartsWith id "prompt-node-" = true) :
    handleInteractionStart id e InteractionType.move s =
      { s with selectedObjectIds := [id] } := by
  have hf := node_id_not_frame_id id hn
  unfold handleInteractionStart nextSelectedIds
  rw [hn, hf]
  simp only [Bool.not_true, Bool.not_false, Bool.false_and, Bool.false_or,
    if_false, if_true, Bool.true_and, reduceIte]
  cases hfind : s.canvas.promptNodes.find? (fun p => p.id == id) with
  | none => rfl
  | some p => rfl

/-- An idle interaction record. -/
def idleRef : InteractionRef :=
  { type := none, targetId := "", startX := 0, startY := 0, startWidth := 0,
    startHeight := 0, startRotation := 0, startAspectRatio := 1,
    centerCanvasX := 0, centerCanvasY := 0, movedObjectIds := [],
    startPositions := [] }

/-- A mouse event with no modifier at the origin. -/
def plainEvent : MouseEvent :=
  { clientX := 0, clientY := 0, movementX := 0, movementY := 0, shiftKey := false }

/-- A state with two prompt nodes, the first of which is not at the top of
the node band. -/
def twoNodeState : AppState :=
  { canvas :=
      { id := "canvas-z", name := "Z",
        objects := [{ id := "img-a", src := "blob:a", x := 0, y := 0, width := 100,
                      height := 100, rotation := 0, zIndex := 0, isAiResult := false }],
        frames := [],
        promptNodes :=
          [{ id := "prompt-node-a", attachedToId := "img-a", x := 0, y := 0,
             width := 48, height := 180, zIndex := 20000, prompt := "" },
           { id := "prompt-node-b", attachedToId := "img-b", x := 0, y := 0,
             width := 48, height := 180, zIndex := 20001, prompt := "" }] },
    selectedObjectIds := [], interaction := idleRef,
    view := { zoom := 1, panX := 0, panY := 0 }, viewportLeft := 0, viewportTop := 0 }

/-- C4 counterexample: a pointer-down on `prompt-node-a` (zIndex 20000,
below the band maximum 20001) leaves its zIndex at 20000 even though one
greater than the band maximum would be 20002 — the handler returns before
its z-promotion block, so the claimed promotion does not happen. -/
theorem nodePointerDown_no_zPromotion :
    ((handleInteractionStart "prompt-node-a" plainEvent InteractionType.move
          twoNodeState).canvas.promptNodes.map (fun p => p.zIndex)) =
        [20000, 20001] ∧
      jsMaxList (twoNodeState.canvas.promptNodes.map (fun p => p.zIndex)) + 1 =
        20002 ∧
      (20000 : ℚ) ≠ 20002 := by
  refine ⟨?_, ?_, by decide⟩
  · rw [nodePointerDown_selection_only twoNodeState "prompt-node-a" plainEvent
      (by decide)]
    decide
  · simp only [twoNodeState, jsMaxList, List.map, List.foldl]
    norm_num

/-- Witness for the amended C4 theorem at a concrete input. -/
theorem nodePointerDown_selection_only_witness :
    strStartsWith "prompt-node-a" "prompt-node-" = true ∧
      handleInteractionStart "prompt-node-a" plainEvent InteractionType.move
          twoNodeState =
        { twoNodeState with selectedObjectIds := ["prompt-node-a"] } :=
  ⟨by decide,
    nodePointerDown_selection_only twoNodeState "prompt-node-a" plainEvent
      (by decide)⟩

/-- C2: immediately after any `handleMouseMove` tick of a live session (any
parent move or resize), every prompt node whose `attachedToId` resolves to a
live parent sits at the derived position `x = parent.x - nodeWidth - margin`,
`y = parent.y + parent.height/2 - nodeHeight/2` (nodeWidth 48, margin 8,
nodeHeight the constant 180) with its height re-synced to `parent.height` —
the node's geometry is recomputed from the parent's current geometry on
every tick, never kept as independent state. -/
theorem promptNode_derived_after_tick (atan2deg : ℚ → ℚ → ℚ) (e : MouseEvent)
    (s : AppState) (node : PromptNodeObject) (parent : CanvasObject ⊕ FrameObject)
    (hty : s.interaction.type = some InteractionType.move ∨
      s.interaction.type = some InteractionType.resizeBR)
    (htgt : s.interaction.targetId ≠ "")
    (hnode : node ∈ (handleMouseMove atan2deg e s).canvas.promptNodes)
    (hparent : findParent (handleMouseMove atan2deg e s).canvas.objects
        (handleMouseMove atan2deg e s).canvas.frames node.attachedToId =
      some parent) :
    node.x = parentX parent - PROMPT_NODE_WIDTH - 8 ∧
      node.y = parentY parent + parentHeight parent / 2 - PROMPT_NODE_HEIGHT / 2 ∧
      node.height = parentHeight parent := by
  obtain ⟨ty, hsome, hpan⟩ : ∃ ty, s.interaction.type = some ty ∧
      ty ≠ InteractionType.pan := by
    rcases hty with h | h
    · exact ⟨_, h, by decide⟩
    · exact ⟨_, h, by decide⟩
  have hres : handleMouseMove atan2deg e s =
      { s with canvas :=
          { s.canvas with
            objects := (tickTargets atan2deg e s ty).1
            frames := (tickTargets atan2deg e s ty).2
            promptNodes := s.canvas.promptNodes.map
              (syncPromptNode (tickTargets atan2deg e s ty).1
                (tickTargets atan2deg e s ty).2) } } := by
    unfold handleMouseMove
    rw [hsome]
    dsimp only
    rw [if_neg hpan, if_neg htgt]
  rw [hres] at hnode hparent
  simp only at hnode hparent
  obtain ⟨m, _, hsync⟩ := List.mem_map.mp hnode
  unfold syncPromptNode at hsync
  cases hq : findParent (tickTargets atan2deg e s ty).1
      (tickTargets atan2deg e s ty).2 m.attachedToId with
  | none =>
    rw [hq] at hsync
    dsimp only at hsync
    subst hsync
    rw [hq] at hparent
    cases hparent
  | some q =>
    rw [hq] at hsync
    dsimp only at hsync
    subst hsync
    dsimp only at hparent
    rw [hq] at hparent
    cases hparent
    exact ⟨rfl, rfl, rfl⟩

/-- The moved image of the concrete C2 tick. -/
def tickOrigObj : CanvasObject :=
  { id := "img-a", src := "blob:a", x := 0, y := 0, width := 100, height := 100,
    rotation := 0, zIndex := 0, isAiResult := false }

/-- The attached prompt node of the concrete C2 tick. -/
def tickOrigNode : PromptNodeObject :=
  { id := "prompt-node-1", attachedToId := "img-a", x := -56, y := -40,
    width := 48, height := 180, zIndex := 20000, prompt := "" }

/-- A state mid-session: a move of `img-a` is in progress. -/
def tickState : AppState :=
  { canvas :=
      { id := "c-tick", name := "T", objects := [tickOrigObj], frames := [],
        promptNodes := [tickOrigNode] },
    selectedObjectIds := ["img-a"],
    interaction :=
      { type := some InteractionType.move, targetId := "img-a", startX := 0,
        startY := 0, startWidth := 100, startHeight := 100, startRotation := 0,
        startAspectRatio := 1, centerCanvasX := 50, centerCanvasY := 50,
        movedObjectIds := ["img-a"],
        startPositions := [("img-a", 0, 0), ("prompt-node-1", -56, -40)] },
    view := { zoom := 1, panX := 0, panY := 0 },
    viewportLeft := 0, viewportTop := 0 }

/-- The tick event: the pointer moved to (10, 5). -/
def tickEvent : MouseEvent :=
  { clientX := 10, clientY := 5, movementX := 10, movementY := 5, shiftKey := false }

/-- A trivial stand-in for the abstract `atan2` parameter. -/
def qAtanZero : ℚ → ℚ → ℚ := fun _ _ => 0

/-- The node as the tick's sync produces it. -/
def tickSyncedNode : PromptNodeObject :=
  syncPromptNode (tickTargets qAtanZero tickEvent tickState InteractionType.move).1
    (tickTargets qAtanZero tickEvent tickState InteractionType.move).2 tickOrigNode

/-- The parent as the tick's move branch produces it. -/
def tickMovedParent : CanvasObject ⊕ FrameObject :=
  Sum.inl (moveTargetObj tickState.interaction.startPositions
    ((tickEvent.clientX - tickState.interaction.startX) / tickState.view.zoom)
    ((tickEvent.clientY - tickState.interaction.startY) / tickState.view.zoom)
    tickOrigObj)

/-- Witness for the C2 theorem at the concrete tick. -/
theorem promptNode_derived_after_tick_witness :
    (tickState.interaction.type = some InteractionType.move ∨
        tickState.interaction.type = some InteractionType.resizeBR) ∧
      tickState.interaction.targetId ≠ "" ∧
      tickSyncedNode ∈
        (handleMouseMove qAtanZero tickEvent tickState).canvas.promptNodes ∧
      findParent (handleMouseMove qAtanZero tickEvent tickState).canvas.objects
          (handleMouseMove qAtanZero tickEvent tickState).canvas.frames
          tickSyncedNode.attachedToId = some tickMovedParent ∧
      (tickSyncedNode.x = parentX tickMovedParent - PROMPT_NODE_WIDTH - 8 ∧
        tickSyncedNode.y = parentY tickMovedParent +
          parentHeight tickMovedParent / 2 - PROMPT_NODE_HEIGHT / 2 ∧
        tickSyncedNode.height = parentHeight tickMovedParent) :=
  ⟨Or.inl rfl, by decide, List.Mem.head _, rfl,
    promptNode_derived_after_tick qAtanZero tickEvent tickState tickSyncedNode
      tickMovedParent (Or.inl rfl) (by decide) (List.Mem.head _) rfl⟩

theorem handleMouseMove_char (atan2deg : ℚ → ℚ → ℚ) (e : MouseEvent)
    (s : AppState) (ty : InteractionType)
    (hsome : s.interaction.type = some ty) (hpan : ty ≠ InteractionType.pan)
    (htgt : s.interaction.targetId ≠ "") :
    handleMouseMove atan2deg e s =
      { s with canvas :=
          { s.canvas with
            objects := (tickTargets atan2deg e s ty).1
            frames := (tickTargets atan2deg e s ty).2
            promptNodes := s.canvas.promptNodes.map
              (syncPromptNode (tickTargets atan2deg e s ty).1
                (tickTargets atan2deg e s ty).2) } } := by
  unfold handleMouseMove
  rw [hsome]
  dsimp only
  rw [if_neg hpan, if_neg htgt]

/-- The per-frame effect of one resize tick on a frame session: the frame
matching the session target gets `width = max(50, startWidth + dx)` and
`height = width / startAspectRatio`, every other frame is untouched
(App.tsx 1178-1181). -/
def resizeFrameStep (r : InteractionRef) (zoom : ℚ) (e : MouseEvent)
    (f : FrameObject) : FrameObject :=
  if f.id == r.targetId then
    { f with
        width := max 50 (r.startWidth + (e.clientX - r.startX) / zoom),
        height := max 50 (r.startWidth + (e.clientX - r.startX) / zoom) /
          r.startAspectRatio }
  else f

theorem tickTargets_resizeBR_frame (atan2deg : ℚ → ℚ → ℚ) (e : MouseEvent)
    (s : AppState)
    (hfr : strStartsWith s.interaction.targetId "format-frame-" = true) :
    tickTargets atan2deg e s InteractionType.resizeBR =
      (s.canvas.objects,
        s.canvas.frames.map (resizeFrameStep s.interaction s.view.zoom e)) := by
  unfold tickTargets
  dsimp only
  rw [if_neg (by decide), if_pos rfl, hfr]
  rfl

theorem resizeFrameStep_last_wins (r : InteractionRef) (zoom : ℚ)
    (e e' : MouseEvent) (f : FrameObject) :
    resizeFrameStep r zoom e' (resizeFrameStep r zoom e f) =
      resizeFrameStep r zoom e' f := by
  unfold resizeFrameStep
  cases h : (f.id == r.targetId) with
  | false => simp [h]
  | true => simp [h]

theorem foldTicks_resizeFrame (atan2deg : ℚ → ℚ → ℚ) (es : List MouseEvent) :
    ∀ st : AppState, st.interaction.type = some InteractionType.resizeBR →
      strStartsWith st.interaction.targetId "format-frame-" = true →
      st.interaction.targetId ≠ "" →
      ((es.foldl (fun acc e => handleMouseMove atan2deg e acc) st).interaction =
          st.interaction ∧
        (es.foldl (fun acc e => handleMouseMove atan2deg e acc) st).view = st.view ∧
        ((es.foldl (fun acc e => handleMouseMove atan2deg e acc) st).canvas.frames =
            st.canvas.frames ∨
          ∃ e, (es.foldl (fun acc e => handleMouseMove atan2deg e acc)
              st).canvas.frames =
            st.canvas.frames.map (resizeFrameStep st.interaction st.view.zoom e))) := by
  induction es with
  | nil => intro st _ _ _; exact ⟨rfl, rfl, Or.inl rfl⟩
  | cons e es ih =>
    intro st hI hfr hne
    have hch := handleMouseMove_char atan2deg e st InteractionType.resizeBR hI
      (by decide) hne
    have htick := tickTargets_resizeBR_frame atan2deg e st hfr
    have hstep : (handleMouseMove atan2deg e st).interaction = st.interaction ∧
        (handleMouseMove atan2deg e st).view = st.view ∧
        (handleMouseMove atan2deg e st).canvas.frames =
          st.canvas.frames.map (resizeFrameStep st.interaction st.view.zoom e) := by
      rw [hch, htick]
      exact ⟨rfl, rfl, rfl⟩
    obtain ⟨hstI, hstV, hstF⟩ := hstep
    have hrec := ih (handleMouseMove atan2deg e st) (by rw [hstI]; exact hI)
      (by rw [hstI]; exact hfr) (by rw [hstI]; exact hne)
    obtain ⟨h1, h2, h3⟩ := hrec
    refine ⟨by rw [List.foldl_cons, h1, hstI],
      by rw [List.foldl_cons, h2, hstV], ?_⟩
    rw [List.foldl_cons]
    rcases h3 with h3 | ⟨e', h3⟩
    · exact Or.inr ⟨e, by rw [h3, hstF]⟩
    · refine Or.inr ⟨e', ?_⟩
      rw [h3, hstF, hstI, hstV, List.map_map]
      exact List.map_congr_left (fun a _ =>
        resizeFrameStep_last_wins st.interaction st.view.zoom e e' a)

theorem interactionStart_frame_parts (s : AppState) (fid : String)
    (e0 : MouseEvent) (ty : InteractionType) (f : FrameObject)
    (hfr : strStartsWith fid "format-frame-" = true)
    (hfind : s.canvas.frames.find? (fun g => g.id == fid) = some f) :
    (handleInteractionStart fid e0 ty s).interaction.type = some ty ∧
      (handleInteractionStart fid e0 ty s).interaction.targetId = fid ∧
      (handleInteractionStart fid e0 ty s).interaction.startX = e0.clientX ∧
      (handleInteractionStart fid e0 ty s).interaction.startWidth = f.width ∧
      (handleInteractionStart fid e0 ty s).interaction.startAspectRatio =
        (if f.aspectRatio = 0 then 1 else f.aspectRatio) ∧
      (handleInteractionStart fid e0 ty s).view = s.view ∧
      (handleInteractionStart fid e0 ty s).canvas.frames =
        s.canvas.frames.map (fun g =>
          if g.id == fid then
            { g with zIndex :=
                (if 0 < s.canvas.frames.length then
                  jsMaxList (s.canvas.frames.map (fun k => k.zIndex))
                else Z_INDEX_BASE_FRAME - 1) + 1 }
          else g) := by
  have hnf := frame_id_not_node_id fid hfr
  unfold handleInteractionStart
  simp only [hfr, hnf, hfind, Bool.not_true, Bool.not_false, Bool.false_and,
    Bool.and_false, Bool.true_and, Bool.and_true, Bool.false_or, Bool.or_false,
    Bool.true_or, Bool.or_true, Option.map_some', reduceIte]
  dsimp only [tgtWidth, tgtAspectRatio]
  exact ⟨rfl, rfl, rfl, rfl, rfl, rfl, rfl⟩

/-- C6: start a bottom-right resize session on a frame, run any sequence of
resize ticks ending with a tick whose canvas-space delta from the session
start is `dx = (e1.clientX - e0.clientX) / zoom`: the frame ends at
`width = max(50, startWidth + dx)` and `height = width / startAspectRatio`,
so `height = width / aspectRatio` holds (exactly, over ℚ) and the width
never drops below 50 — after any sequence of resize deltas. -/
theorem frameResize_aspect_locked (atan2deg : ℚ → ℚ → ℚ) (s : AppState)
    (fid : String) (f : FrameObject) (e0 e1 : MouseEvent) (es : List MouseEvent)
    (hfr : strStartsWith fid "format-frame-" = true)
    (hne : fid ≠ "")
    (hfind : s.canvas.frames.find? (fun g => g.id == fid) = some f)
    (har : f.aspectRatio ≠ 0) :
    ∃ g ∈ ((es ++ [e1]).foldl (fun acc e => handleMouseMove atan2deg e acc)
        (handleInteractionStart fid e0 InteractionType.resizeBR s)).canvas.frames,
      g.id = fid ∧
        g.width = max 50 (f.width + (e1.clientX - e0.clientX) / s.view.zoom) ∧
        g.height = g.width / f.aspectRatio ∧
        50 ≤ g.width ∧
        g.aspectRatio = f.aspectRatio := by
  obtain ⟨hpI, hpT, hpX, hpW, hpA, hpV, hpF⟩ :=
    interactionStart_frame_parts s fid e0 InteractionType.resizeBR f hfr hfind
  set s1 := handleInteractionStart fid e0 InteractionType.resizeBR s with hs1
  obtain ⟨hfI, hfV, hfF⟩ := foldTicks_resizeFrame atan2deg es s1
    (by rw [hpI]) (by rw [hpT]; exact hfr) (by rw [hpT]; exact hne)
  set s2 := es.foldl (fun acc e => handleMouseMove atan2deg e acc) s1 with hs2
  have hrun : (es ++ [e1]).foldl (fun acc e => handleMouseMove atan2deg e acc) s1 =
      handleMouseMove atan2deg e1 s2 := by
    rw [List.foldl_append, List.foldl_cons, List.foldl_nil]
  have hch := handleMouseMove_char atan2deg e1 s2 InteractionType.resizeBR
    (by rw [hfI, hpI]) (by decide) (by rw [hfI, hpT]; exact hne)
  have htick := tickTargets_resizeBR_frame atan2deg e1 s2
    (by rw [hfI, hpT]; exact hfr)
  have hframes3 : (handleMouseMove atan2deg e1 s2).canvas.frames =
      s1.canvas.frames.map (resizeFrameStep s1.interaction s1.view.zoom e1) := by
    rw [hch]
    dsimp only
    rw [htick]
    dsimp only
    rcases hfF with h | ⟨e', h⟩
    · rw [h, hfI, hfV]
    · rw [h, hfI, hfV, List.map_map]
      exact List.map_congr_left (fun a _ =>
        resizeFrameStep_last_wins s1.interaction s1.view.zoom e' e1 a)
  have hfmem : f ∈ s.canvas.frames := List.mem_of_find?_eq_some hfind
  have hfid : f.id = fid := by
    have := List.find?_some hfind
    exact eq_of_beq this
  -- the promoted copy of f in s1, then the resized copy in the final state
  set zTop : ℚ := (if 0 < s.canvas.frames.length then
      jsMaxList (s.canvas.frames.map (fun k => k.zIndex))
    else Z_INDEX_BASE_FRAME - 1) + 1 with hzTop
  have hg0 : ({ f with zIndex := zTop } : FrameObject) ∈ s1.canvas.frames := by
    rw [hpF]
    refine List.mem_map.mpr ⟨f, hfmem, ?_⟩
    rw [if_pos (by rw [hfid]; exact beq_self_eq_true fid)]
  refine ⟨resizeFrameStep s1.interaction s1.view.zoom e1 { f with zIndex := zTop },
    ?_, ?_⟩
  · rw [hrun, hframes3]
    exact List.mem_map.mpr ⟨_, hg0, rfl⟩
  · have hid0 : ({ f with zIndex := zTop } : FrameObject).id == s1.interaction.targetId :=
      by rw [hpT]; show f.id == fid; rw [hfid]; exact beq_self_eq_true fid
    unfold resizeFrameStep
    rw [if_pos hid0]
    refine ⟨hfid, ?_, ?_, ?_, rfl⟩
    · show max 50 (s1.interaction.startWidth +
        (e1.clientX - s1.interaction.startX) / s1.view.zoom) = _
      rw [hpW, hpX, hpV]
    · show max 50 (s1.interaction.startWidth +
          (e1.clientX - s1.interaction.startX) / s1.view.zoom) /
          s1.interaction.startAspectRatio = _
      rw [hpA, if_neg har, hpW, hpX, hpV]
    · exact le_max_left _ _

/-- The frame of the concrete C6 resize session. -/
def frameDemoFrame : FrameObject :=
  { id := "format-frame-1", src := "", x := 0, y := 0, width := 100, height := 50,
    rotation := 0, zIndex := 10000, aspectRatio := 2 }

/-- A state holding just that frame, idle. -/
def frameDemoState : AppState :=
  { canvas :=
      { id := "c-f", name := "F", objects := [], frames := [frameDemoFrame],
        promptNodes := [] },
    selectedObjectIds := [], interaction := idleRef,
    view := { zoom := 1, panX := 0, panY := 0 }, viewportLeft := 0, viewportTop := 0 }

/-- The resize tick event: pointer at x = 30. -/
def resizeEvent1 : MouseEvent :=
  { clientX := 30, clientY := 0, movementX := 30, movementY := 0, shiftKey := false }

/-- Witness for the C6 theorem at the concrete resize session. -/
theorem frameResize_aspect_locked_witness :
    strStartsWith "format-frame-1" "format-frame-" = true ∧
      ("format-frame-1" : String) ≠ "" ∧
      frameDemoState.canvas.frames.find? (fun g => g.id == "format-frame-1") =
        some frameDemoFrame ∧
      frameDemoFrame.aspectRatio ≠ 0 ∧
      (∃ g ∈ (([] ++ [resizeEvent1]).foldl
          (fun acc e => handleMouseMove qAtanZero e acc)
          (handleInteractionStart "format-frame-1" plainEvent
            InteractionType.resizeBR frameDemoState)).canvas.frames,
        g.id = "format-frame-1" ∧
          g.width = max 50 (frameDemoFrame.width +
            (resizeEvent1.clientX - plainEvent.clientX) /
              frameDemoState.view.zoom) ∧
          g.height = g.width / frameDemoFrame.aspectRatio ∧
          50 ≤ g.width ∧
          g.aspectRatio = frameDemoFrame.aspectRatio) :=
  ⟨by decide, by decide, rfl, by decide,
    frameResize_aspect_locked qAtanZero frameDemoState "format-frame-1"
      frameDemoFrame plainEvent resizeEvent1 [] (by decide) (by decide) rfl
      (by decide)⟩

theorem fromEntriesGet_append (l₁ l₂ : List (String × ℚ × ℚ)) (k : String) :
    fromEntriesGet (l₁ ++ l₂) k =
      match fromEntriesGet l₂ k with
      | some v => some v
      | none => fromEntriesGet l₁ k := by
  induction l₁ with
  | nil =>
    cases h : fromEntriesGet l₂ k with
    | none => simp [fromEntriesGet, h]
    | some v => simp [h]
  | cons a l₁ ih =>
    obtain ⟨ka, vx, vy⟩ := a
    have hstep : ∀ rest : List (String × ℚ × ℚ),
        fromEntriesGet ((ka, vx, vy) :: rest) k =
          match fromEntriesGet rest k with
          | some v => some v
          | none => if k = ka then some (vx, vy) else none :=
      fun rest => rfl
    show fromEntriesGet ((ka, vx, vy) :: (l₁ ++ l₂)) k = _
    rw [hstep (l₁ ++ l₂), ih, hstep l₁]
    cases h2 : fromEntriesGet l₂ k with
    | none => rfl
    | some v => rfl

theorem fromEntriesGet_not_mem (l : List (String × ℚ × ℚ)) (k : String)
    (h : ∀ e ∈ l, e.1 ≠ k) : fromEntriesGet l k = none := by
  induction l with
  | nil => rfl
  | cons a l ih =>
    obtain ⟨ka, vx, vy⟩ := a
    unfold fromEntriesGet
    rw [ih (fun e he => h e (List.mem_cons_of_mem _ he))]
    exact if_neg (fun hk =>
      h (ka, vx, vy) (List.mem_cons_self _ _) hk.symm)

theorem fromEntriesGet_of_mem_nodup (l : List (String × ℚ × ℚ)) (k : String)
    (v : ℚ × ℚ) (hnd : (l.map Prod.fst).Nodup) (hm : (k, v) ∈ l) :
    fromEntriesGet l k = some v := by
  induction l with
  | nil => cases hm
  | cons a l ih =>
    obtain ⟨ka, vx, vy⟩ := a
    rcases List.mem_cons.mp hm with heq | hmem
    · obtain ⟨h1, h2⟩ := Prod.mk.injEq .. ▸ heq
      subst h1
      have hnotin : ∀ e ∈ l, e.1 ≠ k := by
        intro e he hek
        have : k ∈ l.map Prod.fst := List.mem_map.mpr ⟨e, he, hek⟩
        exact (List.nodup_cons.mp hnd).1 this
      unfold fromEntriesGet
      rw [fromEntriesGet_not_mem l k hnotin, if_pos rfl, h2]
    · have := ih (List.nodup_cons.mp hnd).2 hmem
      unfold fromEntriesGet
      rw [this]

theorem tickTargets_move_image (atan2deg : ℚ → ℚ → ℚ) (e : MouseEvent)
    (s : AppState)
    (hfr : strStartsWith s.interaction.targetId "format-frame-" = false)
    (hn : strStartsWith s.interaction.targetId "prompt-node-" = false) :
    tickTargets atan2deg e s InteractionType.move =
      (s.canvas.objects.map (fun obj =>
        if s.interaction.movedObjectIds.contains obj.id then
          moveTargetObj s.interaction.startPositions
            ((e.clientX - s.interaction.startX) / s.view.zoom)
            ((e.clientY - s.interaction.startY) / s.view.zoom) obj
        else obj), s.canvas.frames) := by
  unfold tickTargets
  dsimp only
  rw [if_pos rfl, hfr, hn]
  rfl

theorem interactionStart_image_parts (s : AppState) (tid : String)
    (e0 : MouseEvent) (ty : InteractionType) (tgt : CanvasObject)
    (hfr : strStartsWith tid "format-frame-" = false)
    (hn : strStartsWith tid "prompt-node-" = false)
    (hfind : s.canvas.objects.find? (fun o => o.id == tid) = some tgt) :
    (handleInteractionStart tid e0 ty s).interaction.type = some ty ∧
      (handleInteractionStart tid e0 ty s).interaction.targetId = tid ∧
      (handleInteractionStart tid e0 ty s).interaction.startX = e0.clientX ∧
      (handleInteractionStart tid e0 ty s).interaction.startY = e0.clientY ∧
      (handleInteractionStart tid e0 ty s).interaction.movedObjectIds =
        nextSelectedIds tid e0 s.selectedObjectIds ∧
      (handleInteractionStart tid e0 ty s).interaction.startPositions =
        (s.canvas.objects.filter (fun o =>
            (nextSelectedIds tid e0 s.selectedObjectIds).contains o.id)).map
          (fun o => (o.id, o.x, o.y)) ++
          (s.canvas.promptNodes.filter (fun p =>
            (nextSelectedIds tid e0 s.selectedObjectIds).contains
              p.attachedToId)).map (fun p => (p.id, p.x, p.y)) ∧
      (handleInteractionStart tid e0 ty s).selectedObjectIds =
        nextSelectedIds tid e0 s.selectedObjectIds ∧
      (handleInteractionStart tid e0 ty s).view = s.view ∧
      (handleInteractionStart tid e0 ty s).canvas.objects =
        s.canvas.objects.map (fun o =>
          if o.id == tid then
            { o with zIndex :=
                (if 0 < s.canvas.objects.length then
                  jsMaxList (s.canvas.objects.map (fun k => k.zIndex))
                else Z_INDEX_BASE_IMAGE - 1) + 1 }
          else o) := by
  unfold handleInteractionStart
  simp only [hfr, hn, hfind, Bool.not_true, Bool.not_false, Bool.false_and,
    Bool.and_false, Bool.true_and, Bool.and_true, Bool.false_or, Bool.or_false,
    Bool.true_or, Bool.or_true, Option.map_some', reduceIte]
  exact ⟨rfl, rfl, rfl, rfl, rfl, rfl, rfl, rfl, rfl⟩

/-- C5: start a move on an image (any selection shape), then tick: every
selected image moves by exactly the same canvas-space delta
`((e1.clientX - e0.clientX)/zoom, (e1.clientY - e0.clientY)/zoom)` relative
to its session-start snapshot, so all pairwise relative offsets between the
moved images are preserved exactly. Ids are assumed globally unique (a
stated model invariant): image ids are pairwise distinct and no prompt node
shares an id with an image. -/
theorem groupMove_uniform_delta (atan2deg : ℚ → ℚ → ℚ) (s : AppState)
    (tid : String) (tgt : CanvasObject) (e0 e1 : MouseEvent)
    (hfr : strStartsWith tid "format-frame-" = false)
    (hn : strStartsWith tid "prompt-node-" = false)
    (hne : tid ≠ "")
    (hfind : s.canvas.objects.find? (fun o => o.id == tid) = some tgt)
    (hnodup : (s.canvas.objects.map (fun o => o.id)).Nodup)
    (hclash : ∀ p ∈ s.canvas.promptNodes, ∀ o ∈ s.canvas.objects, p.id ≠ o.id) :
    (∀ o ∈ s.canvas.objects,
        o.id ∈ (handleInteractionStart tid e0 InteractionType.move
            s).selectedObjectIds →
        ∃ o2 ∈ (handleMouseMove atan2deg e1 (handleInteractionStart tid e0
            InteractionType.move s)).canvas.objects,
          o2.id = o.id ∧
            o2.x = o.x + (e1.clientX - e0.clientX) / s.view.zoom ∧
            o2.y = o.y + (e1.clientY - e0.clientY) / s.view.zoom) ∧
      (∀ a ∈ s.canvas.objects, ∀ b ∈ s.canvas.objects,
        a.id ∈ (handleInteractionStart tid e0 InteractionType.move
          s).selectedObjectIds →
        b.id ∈ (handleInteractionStart tid e0 InteractionType.move
          s).selectedObjectIds →
        ∃ a2 ∈ (handleMouseMove atan2deg e1 (handleInteractionStart tid e0
            InteractionType.move s)).canvas.objects,
          ∃ b2 ∈ (handleMouseMove atan2deg e1 (handleInteractionStart tid e0
              InteractionType.move s)).canvas.objects,
            a2.id = a.id ∧ b2.id = b.id ∧
              a2.x - b2.x = a.x - b.x ∧ a2.y - b2.y = a.y - b.y) := by
  obtain ⟨hpI, hpT, hpX, hpY, hpM, hpP, hpS, hpV, hpO⟩ :=
    interactionStart_image_parts s tid e0 InteractionType.move tgt hfr hn hfind
  set s1 := handleInteractionStart tid e0 InteractionType.move s with hs1
  have hch := handleMouseMove_char atan2deg e1 s1 InteractionType.move hpI
    (by decide) (by rw [hpT]; exact hne)
  have htt := tickTargets_move_image atan2deg e1 s1 (by rw [hpT]; exact hfr)
    (by rw [hpT]; exact hn)
  have hobj2 : (handleMouseMove atan2deg e1 s1).canvas.objects =
      s1.canvas.objects.map (fun obj =>
        if s1.interaction.movedObjectIds.contains obj.id then
          moveTargetObj s1.interaction.startPositions
            ((e1.clientX - s1.interaction.startX) / s1.view.zoom)
            ((e1.clientY - s1.interaction.startY) / s1.view.zoom) obj
        else obj) := by
    rw [hch]
    dsimp only
    rw [htt]
  have hcore : ∀ o ∈ s.canvas.objects, o.id ∈ s1.selectedObjectIds →
      ∃ o2 ∈ (handleMouseMove atan2deg e1 s1).canvas.objects,
        o2.id = o.id ∧ o2.x = o.x + (e1.clientX - e0.clientX) / s.view.zoom ∧
          o2.y = o.y + (e1.clientY - e0.clientY) / s.view.zoom := by
    intro o ho hsel
    rw [hpS] at hsel
    set Z : ℚ := (if 0 < s.canvas.objects.length then
        jsMaxList (s.canvas.objects.map (fun k => k.zIndex))
      else Z_INDEX_BASE_IMAGE - 1) + 1 with hZ
    set po : CanvasObject :=
      (if o.id == tid then { o with zIndex := Z } else o) with hpo
    have hpomem : po ∈ s1.canvas.objects := by
      rw [hpO]
      exact List.mem_map.mpr ⟨o, ho, hpo.symm⟩
    have hq1 : po.id = o.id := by
      rw [hpo]
      cases h : (o.id == tid) <;> simp [h]
    have hcso : (nextSelectedIds tid e0 s.selectedObjectIds).contains o.id = true :=
      List.elem_eq_true_of_mem hsel
    have hcontq : s1.interaction.movedObjectIds.contains po.id = true := by
      rw [hq1, hpM]
      exact hcso
    have hlook : fromEntriesGet s1.interaction.startPositions o.id =
        some (o.x, o.y) := by
      rw [hpP, fromEntriesGet_append]
      have hnone : fromEntriesGet
          ((s.canvas.promptNodes.filter (fun p =>
            (nextSelectedIds tid e0 s.selectedObjectIds).contains
              p.attachedToId)).map (fun p => (p.id, p.x, p.y))) o.id = none := by
        apply fromEntriesGet_not_mem
        intro en hen
        obtain ⟨p, hp, hpe⟩ := List.mem_map.mp hen
        have hen1 : en.1 = p.id := by rw [← hpe]
        rw [hen1]
        exact hclash p (List.mem_of_mem_filter hp) o ho
      rw [hnone]
      apply fromEntriesGet_of_mem_nodup
      · rw [List.map_map]
        have heq : (Prod.fst ∘ fun q : CanvasObject => (q.id, q.x, q.y)) =
            fun q : CanvasObject => q.id := rfl
        rw [heq]
        exact ((List.filter_sublist _).map _).nodup hnodup
      · exact List.mem_map.mpr ⟨o, List.mem_filter.mpr ⟨ho, hcso⟩, rfl⟩
    refine ⟨(if s1.interaction.movedObjectIds.contains po.id then
        moveTargetObj s1.interaction.startPositions
          ((e1.clientX - s1.interaction.startX) / s1.view.zoom)
          ((e1.clientY - s1.interaction.startY) / s1.view.zoom) po
      else po), ?_, ?_, ?_, ?_⟩
    · rw [hobj2]
      exact List.mem_map.mpr ⟨po, hpomem, rfl⟩
    · rw [if_pos hcontq]
      unfold moveTargetObj
      rw [hq1, hlook]
    · rw [if_pos hcontq]
      unfold moveTargetObj
      rw [hq1, hlook]
      show o.x + (e1.clientX - s1.interaction.startX) / s1.view.zoom = _
      rw [hpX, hpV]
    · rw [if_pos hcontq]
      unfold moveTargetObj
      rw [hq1, hlook]
      show o.y + (e1.clientY - s1.interaction.startY) / s1.view.zoom = _
      rw [hpY, hpV]
  refine ⟨hcore, ?_⟩
  intro a ha b hb hsa hsb
  obtain ⟨a2, ha2m, ha2id, ha2x, ha2y⟩ := hcore a ha hsa
  obtain ⟨b2, hb2m, hb2id, hb2x, hb2y⟩ := hcore b hb hsb
  refine ⟨a2, ha2m, b2, hb2m, ha2id, hb2id, ?_, ?_⟩
  · rw [ha2x, hb2x]; ring
  · rw [ha2y, hb2y]; ring

/-- First selected image of the concrete C5 group move. -/
def moveDemoA : CanvasObject :=
  { id := "a", src := "blob:a", x := 0, y := 0, width := 100, height := 100,
    rotation := 0, zIndex := 0, isAiResult := false }

/-- Second selected image of the concrete C5 group move. -/
def moveDemoB : CanvasObject :=
  { id := "b", src := "blob:b", x := 200, y := 100, width := 50, height := 50,
    rotation := 0, zIndex := 1, isAiResult := false }

/-- A state with both images selected, idle. -/
def moveDemoState : AppState :=
  { canvas :=
      { id := "c-m", name := "M", objects := [moveDemoA, moveDemoB],
        frames := [], promptNodes := [] },
    selectedObjectIds := ["a", "b"], interaction := idleRef,
    view := { zoom := 1, panX := 0, panY := 0 }, viewportLeft := 0,
    viewportTop := 0 }

/-- The move tick event: pointer at (7, 3). -/
def moveEvent1 : MouseEvent :=
  { clientX := 7, clientY := 3, movementX := 7, movementY := 3, shiftKey := false }

/-- Witness for the C5 theorem at the concrete two-image group move. -/
theorem groupMove_uniform_delta_witness :
    strStartsWith "a" "format-frame-" = false ∧
      strStartsWith "a" "prompt-node-" = false ∧
      ("a" : String) ≠ "" ∧
      moveDemoState.canvas.objects.find? (fun o => o.id == "a") = some moveDemoA ∧
      (moveDemoState.canvas.objects.map (fun o => o.id)).Nodup ∧
      (∀ p ∈ moveDemoState.canvas.promptNodes,
        ∀ o ∈ moveDemoState.canvas.objects, p.id ≠ o.id) ∧
      ((∀ o ∈ moveDemoState.canvas.objects,
          o.id ∈ (handleInteractionStart "a" plainEvent InteractionType.move
              moveDemoState).selectedObjectIds →
          ∃ o2 ∈ (handleMouseMove qAtanZero moveEvent1 (handleInteractionStart "a"
              plainEvent InteractionType.move moveDemoState)).canvas.objects,
            o2.id = o.id ∧
              o2.x = o.x + (moveEvent1.clientX - plainEvent.clientX) /
                moveDemoState.view.zoom ∧
              o2.y = o.y + (moveEvent1.clientY - plainEvent.clientY) /
                moveDemoState.view.zoom) ∧
        (∀ a ∈ moveDemoState.canvas.objects, ∀ b ∈ moveDemoState.canvas.objects,
          a.id ∈ (handleInteractionStart "a" plainEvent InteractionType.move
            moveDemoState).selectedObjectIds →
          b.id ∈ (handleInteractionStart "a" plainEvent InteractionType.move
            moveDemoState).selectedObjectIds →
          ∃ a2 ∈ (handleMouseMove qAtanZero moveEvent1 (handleInteractionStart "a"
              plainEvent InteractionType.move moveDemoState)).canvas.objects,
            ∃ b2 ∈ (handleMouseMove qAtanZero moveEvent1 (handleInteractionStart
                "a" plainEvent InteractionType.move moveDemoState)).canvas.objects,
              a2.id = a.id ∧ b2.id = b.id ∧
                a2.x - b2.x = a.x - b.x ∧ a2.y - b2.y = a.y - b.y)) :=
  ⟨by decide, by decide, by decide, rfl, by decide,
    fun p hp => absurd hp (List.not_mem_nil p),
    groupMove_uniform_delta qAtanZero moveDemoState "a" moveDemoA plainEvent
      moveEvent1 (by decide) (by decide) (by decide) rfl (by decide)
      (fun p hp => absurd hp (List.not_mem_nil p))⟩
